import Mathlib

/-!
A shallow embedding of the inix reconciliation engine (src/main.rs).

Paths are modelled as lists of path segments.  The filesystem side effects
of one run are modelled as the ordered list of primitive operations the
program issues, together with the error (if any) that aborts the run.
The interactive prompt is modelled by the stream of read-line events the
input capability delivers.
-/

/-- ConflictBehavior enum, src/main.rs lines 19-25. -/
inductive ConflictBehavior where
  | Overwrite
  | MergeKeep
  | MergeReplace
  | Cancel
deriving DecidableEq

/-- TemplateFiles2 enum, src/main.rs lines 141-146: which files a template carries. -/
inductive TemplateFiles2 where
  | Nix (content : String)
  | Envrc (content : String)
  | Both (nix : String) (envrc : String)
deriving DecidableEq

/-- Template2, src/main.rs lines 154-160.  The source_dir and template_type fields
only feed error-message text and are not part of the reconciliation logic. -/
structure Template2 where
  name : String
  files : TemplateFiles2
deriving DecidableEq

/-- Template2::files(), src/main.rs lines 171-179: the (file name, contents) pairs
written for one template, in source order. -/
def Template2.fileList (t : Template2) : List (String × String) :=
  match t.files with
  | TemplateFiles2.Nix content => [("shell.nix", content)]
  | TemplateFiles2.Envrc content => [(".envrc", content)]
  | TemplateFiles2.Both nix envrc => [(".envrc", envrc), ("shell.nix", nix)]

/-- TemplateCollisions enum, src/main.rs lines 323-328.  The NonEmpty payload is
modelled as an explicit head and tail. -/
inductive TemplateCollisions where
  | None
  | All (head : String) (tail : List String)
  | Some (head : String) (tail : List String)
deriving DecidableEq

/-- InixDirState enum, src/main.rs lines 330-336. -/
inductive InixDirState where
  | DoesNotExist
  | AlreadyExists (template_collisions : TemplateCollisions)
deriving DecidableEq

/-- The possible answers of the operating system to the is_dir question asked
about the inix directory path: it is a directory, it is not a directory, or the
metadata query itself failed (permission or IO error). -/
inductive FsQueryResult where
  | isDir
  | notDir
  | queryError
deriving DecidableEq

/-- Rust Path::is_dir (used at src/main.rs line 392) returns false both when the
path is not a directory and when the underlying metadata query fails. -/
def rustIsDir : FsQueryResult → Bool
  | FsQueryResult.isDir => true
  | FsQueryResult.notDir => false
  | FsQueryResult.queryError => false

/-- The conflicting_templates computation, src/main.rs lines 393-402: the requested
template names whose subdirectory already exists under the inix directory, in
request order (duplicates in the request are kept). -/
def conflictingTemplates (names existing : List String) : List String :=
  names.filter (fun n => existing.contains n)

/-- The template_collisions match, src/main.rs lines 404-413: an empty conflict
list is None; a conflict list as long as the request is All; anything else is Some. -/
def classifyCollisions (names : List String) : List String → TemplateCollisions
  | [] => TemplateCollisions.None
  | head :: tail =>
    if (head :: tail).length = names.length then
      TemplateCollisions.All head tail
    else
      TemplateCollisions.Some head tail

/-- The inix_dir state computation, src/main.rs lines 391-426: if the is_dir query
reports a directory, classify the collisions; otherwise the state is DoesNotExist. -/
def inspectState (query : FsQueryResult) (names existing : List String) : InixDirState :=
  if rustIsDir query then
    InixDirState.AlreadyExists (classifyCollisions names (conflictingTemplates names existing))
  else
    InixDirState.DoesNotExist

/-- PromptOption, src/main.rs lines 722-727, together with its hash-map key.
The long display-only description text is omitted; the short_description label and
the behavior are the data the prompt contract is about. -/
structure PromptOption where
  key : Char
  short_description : String
  conflict_behavior : ConflictBehavior
deriving DecidableEq

/-- The prompt option sets, src/main.rs lines 779-806, listed in key order. -/
def promptOptions : TemplateCollisions → List PromptOption
  | TemplateCollisions.None =>
      [⟨'A', "merge", ConflictBehavior.MergeKeep⟩,
       ⟨'B', "overwrite", ConflictBehavior.Overwrite⟩,
       ⟨'C', "cancel", ConflictBehavior.Cancel⟩]
  | TemplateCollisions.All _ _ =>
      [⟨'A', "overwrite", ConflictBehavior.Overwrite⟩,
       ⟨'B', "merge-replace", ConflictBehavior.MergeReplace⟩,
       ⟨'C', "cancel", ConflictBehavior.Cancel⟩]
  | TemplateCollisions.Some _ _ =>
      [⟨'A', "overwrite", ConflictBehavior.Overwrite⟩,
       ⟨'B', "merge-replace", ConflictBehavior.MergeReplace⟩,
       ⟨'C', "merge-keep", ConflictBehavior.MergeKeep⟩,
       ⟨'D', "cancel", ConflictBehavior.Cancel⟩]

/-- One event delivered by the rustyline read-line capability, src/main.rs line 813:
a line of input, an interrupt, end of input, or some other readline error. -/
inductive ReadEvent where
  | line (s : String)
  | interrupted
  | eof
  | otherErr
deriving DecidableEq

/-- The outcome of the prompt loop: a chosen behavior, cancellation (bail on
interrupt or end of input), or still waiting because the event stream ran dry
(the real loop would block for more input). -/
inductive PromptResult where
  | chose (b : ConflictBehavior)
  | cancelled
  | pending
deriving DecidableEq

/-- The prompt read-eval loop, src/main.rs lines 810-837: a "?" line redisplays the
menu, a line matching an option key (case-insensitively, after trimming) selects
that option, an unrecognized line re-prompts, interrupt and end of input bail with
cancellation, and any other readline error re-prompts. -/
def promptLoop (opts : List PromptOption) : List ReadEvent → PromptResult
  | [] => PromptResult.pending
  | ReadEvent.line s :: rest =>
    if s.trim = "?" then promptLoop opts rest
    else
      match opts.find? (fun o => s.trim.toLower == o.key.toString.toLower) with
      | Option.some o => PromptResult.chose o.conflict_behavior
      | Option.none => promptLoop opts rest
  | ReadEvent.interrupted :: _ => PromptResult.cancelled
  | ReadEvent.eof :: _ => PromptResult.cancelled
  | ReadEvent.otherErr :: rest => promptLoop opts rest

/-- The on_conflict resolution, src/main.rs lines 428-432: an explicit flag always
wins; with no flag and no existing directory the behavior defaults to Cancel; with
no flag and an existing directory the interactive prompt decides. -/
def resolveBehavior (state : InixDirState) (on_conflict : Option ConflictBehavior)
    (events : List ReadEvent) : PromptResult :=
  match state, on_conflict with
  | _, Option.some b => PromptResult.chose b
  | InixDirState.DoesNotExist, Option.none => PromptResult.chose ConflictBehavior.Cancel
  | InixDirState.AlreadyExists tc, Option.none => promptLoop (promptOptions tc) events

/-- A primitive filesystem mutation issued by the program. -/
inductive FsOp where
  | createDirAll (path : List String)
  | removeDirAll (path : List String)
  | writeFile (path : List String) (contents : String)
deriving DecidableEq

/-- The per-template copy loop body, src/main.rs lines 537-556 (and its verbatim
repetitions at 567-586, 604-623, 626-645): create the template subdirectory, then
write each of its files. -/
def writeTemplateOps (inixPath : List String) (t : Template2) : List FsOp :=
  FsOp.createDirAll (inixPath ++ [t.name]) ::
    t.fileList.map (fun fc => FsOp.writeFile (inixPath ++ [t.name, fc.1]) fc.2)

/-- The operations of the per-template copy loop run over a whole template list,
in order. -/
def templatesOps (inixPath : List String) : List Template2 → List FsOp
  | [] => []
  | t :: rest => writeTemplateOps inixPath t ++ templatesOps inixPath rest

/-- The templates_to_copy computation of the MergeKeep arm, src/main.rs
lines 594-602. -/
def templatesToCopy (tc : TemplateCollisions) (templates : List Template2) :
    List Template2 :=
  match tc with
  | TemplateCollisions.Some head tail =>
      templates.filter (fun t => !((head :: tail).contains t.name))
  | TemplateCollisions.None => templates
  | TemplateCollisions.All _ _ => []

/-- The copy-templates match, src/main.rs lines 529-650: the filesystem operations
of the (state, behavior) dispatch, in issue order. -/
def copyTemplatesOps (inixPath : List String) (state : InixDirState)
    (behavior : ConflictBehavior) (templates : List Template2) : List FsOp :=
  match state, behavior with
  | InixDirState.DoesNotExist, _ =>
      FsOp.createDirAll inixPath :: templatesOps inixPath templates
  | InixDirState.AlreadyExists _, ConflictBehavior.Overwrite =>
      FsOp.removeDirAll inixPath :: FsOp.createDirAll inixPath ::
        templatesOps inixPath templates
  | InixDirState.AlreadyExists tc, ConflictBehavior.MergeKeep =>
      templatesOps inixPath (templatesToCopy tc templates)
  | InixDirState.AlreadyExists _, ConflictBehavior.MergeReplace =>
      templatesOps inixPath templates
  | InixDirState.AlreadyExists _, ConflictBehavior.Cancel => []

/-- Modelled from the spec: the bytes of the base template
(src/templates/base/shell.nix.template, pulled in with include_str at src/main.rs
line 197) are not part of src/, so the handlebars rendering of the base shell.nix
is modelled as a computable function of the requested template names. -/
def renderBaseNix (names : List String) : String :=
  "base shell.nix for templates: " ++ String.intercalate ", " names

/-- Modelled from the spec: the bytes of the base template
(src/templates/base/.envrc.template, pulled in with include_str at src/main.rs
line 198) are not part of src/, so the handlebars rendering of the base .envrc is
modelled as a computable function of the requested template names. -/
def renderBaseEnvrc (names : List String) : String :=
  "base envrc for templates: " ++ String.intercalate ", " names

/-- The unconditional base-template rendering, src/main.rs lines 653-680: write the
rendered shell.nix and then the rendered .envrc at the target directory root. -/
def baseRenderOps (targetDir : List String) (templates : List Template2) : List FsOp :=
  [FsOp.writeFile (targetDir ++ ["shell.nix"])
      (renderBaseNix (templates.map Template2.name)),
   FsOp.writeFile (targetDir ++ [".envrc"])
      (renderBaseEnvrc (templates.map Template2.name))]

/-- The ways a run can abort: the bail on a cancelled prompt (src/main.rs line 830)
and the bail on a read-only target directory (src/main.rs lines 520-525). -/
inductive RunError where
  | cancelled
  | permissionDenied
deriving DecidableEq

/-- The inputs of one invocation of run (src/main.rs lines 374-688): the target
directory, what the filesystem reports about it and about the inix subdirectory,
the resolved templates, the command-line choices, and the interactive input. -/
structure World where
  targetDir : List String
  targetExists : Bool
  targetReadonly : Bool
  inixDirQuery : FsQueryResult
  existingSubdirs : List String
  templates : List Template2
  on_conflict : Option ConflictBehavior
  promptEvents : List ReadEvent
  dry_run : Bool
deriving DecidableEq

/-- The collision classification run computes for a world, src/main.rs
lines 393-413. -/
def collisionsOf (w : World) : TemplateCollisions :=
  classifyCollisions (w.templates.map Template2.name)
    (conflictingTemplates (w.templates.map Template2.name) w.existingSubdirs)

/-- The run function, src/main.rs lines 374-688, as the ordered list of filesystem
operations it issues paired with the error (if any) that aborts it; the answer is
absent when the run blocks forever at the prompt.  Order as in the source: resolve
the behavior (possibly prompting), then either print the dry-run plan or create or
permission-check the target directory and dispatch the copy, and finally (in every
completed run, dry or not) render the base files at the target root. -/
def runOps (w : World) : Option (List FsOp × Option RunError) :=
  let names := w.templates.map Template2.name
  let state := inspectState w.inixDirQuery names w.existingSubdirs
  let inixPath := w.targetDir ++ ["inix"]
  match resolveBehavior state w.on_conflict w.promptEvents with
  | PromptResult.pending => Option.none
  | PromptResult.cancelled => Option.some ([], Option.some RunError.cancelled)
  | PromptResult.chose behavior =>
    if w.dry_run then
      Option.some (baseRenderOps w.targetDir w.templates, Option.none)
    else if !w.targetExists then
      Option.some (FsOp.createDirAll w.targetDir ::
        (copyTemplatesOps inixPath state behavior w.templates ++
          baseRenderOps w.targetDir w.templates), Option.none)
    else if w.targetReadonly then
      Option.some ([], Option.some RunError.permissionDenied)
    else
      Option.some (copyTemplatesOps inixPath state behavior w.templates ++
        baseRenderOps w.targetDir w.templates, Option.none)

/-- Whether the process exits successfully: main (src/main.rs lines 690-694)
returns the result of run, and a Rust main returning Err exits with a failure
status code. -/
def mainExitsSuccessfully (w : World) : Bool :=
  match runOps w with
  | Option.some (_, Option.none) => true
  | _ => false

/-- A concrete world where the inix directory exists and contains every requested
template: the node template is requested and a node subdirectory already exists,
with MergeKeep chosen explicitly. -/
def mergeKeepAllWorld : World :=
  { targetDir := ["p"], targetExists := true, targetReadonly := false,
    inixDirQuery := FsQueryResult.isDir, existingSubdirs := ["node"],
    templates := [{ name := "node", files := TemplateFiles2.Both "nixfile" "envrcfile" }],
    on_conflict := Option.some ConflictBehavior.MergeKeep,
    promptEvents := [], dry_run := false }

/-- A concrete world where the inix directory exists, no explicit behavior is
given, and the user interrupts the interactive prompt. -/
def interruptedWorld : World :=
  { targetDir := ["q"], targetExists := false, targetReadonly := false,
    inixDirQuery := FsQueryResult.isDir, existingSubdirs := ["rust"],
    templates := [{ name := "rust", files := TemplateFiles2.Nix "nixfile" }],
    on_conflict := Option.none,
    promptEvents := [ReadEvent.interrupted], dry_run := false }

/-- A concrete world whose target directory exists but is read-only, with an
explicit Overwrite behavior. -/
def readonlyWorld : World :=
  { targetDir := ["p"], targetExists := true, targetReadonly := true,
    inixDirQuery := FsQueryResult.notDir, existingSubdirs := [],
    templates := [], on_conflict := Option.some ConflictBehavior.Overwrite,
    promptEvents := [], dry_run := false }

/-! Helper lemmas shared by several claims. -/

theorem append_singleton_ne_self (l : List String) (s : String) : l ++ [s] ≠ l := by
  intro h
  have h2 := congrArg List.length h
  simp at h2

theorem mem_templatesOps {inixPath : List String} {ts : List Template2} {t : Template2}
    (ht : t ∈ ts) {op : FsOp} (hop : op ∈ writeTemplateOps inixPath t) :
    op ∈ templatesOps inixPath ts := by
  induction ts with
  | nil => cases ht
  | cons hd tl ih =>
    rcases List.mem_cons.mp ht with h | h
    · subst h
      exact List.mem_append_left _ hop
    · exact List.mem_append_right _ (ih h)

theorem resolveBehavior_explicit (state : InixDirState) (b : ConflictBehavior)
    (events : List ReadEvent) :
    resolveBehavior state (Option.some b) events = PromptResult.chose b := by
  cases state <;> rfl

/-- C9: for every collision state, the interactive prompt offers exactly the
state-dependent option set of the spec: None offers merge mapping to MergeKeep,
overwrite to Overwrite and cancel to Cancel; All offers overwrite, merge-replace
and cancel; Some offers overwrite, merge-replace, merge-keep and cancel; with the
matching behaviors and no further options. -/
theorem prompt_option_sets (tc : TemplateCollisions) :
    (promptOptions tc).map (fun o => (o.short_description, o.conflict_behavior)) =
      match tc with
      | TemplateCollisions.None =>
          [("merge", ConflictBehavior.MergeKeep),
           ("overwrite", ConflictBehavior.Overwrite),
           ("cancel", ConflictBehavior.Cancel)]
      | TemplateCollisions.All _ _ =>
          [("overwrite", ConflictBehavior.Overwrite),
           ("merge-replace", ConflictBehavior.MergeReplace),
           ("cancel", ConflictBehavior.Cancel)]
      | TemplateCollisions.Some _ _ =>
          [("overwrite", ConflictBehavior.Overwrite),
           ("merge-replace", ConflictBehavior.MergeReplace),
           ("merge-keep", ConflictBehavior.MergeKeep),
           ("cancel", ConflictBehavior.Cancel)] := by
  cases tc <;> rfl

/-- C8 counterexample: when the filesystem metadata query about the inix path
fails (a permission or IO error), the inspection classifies the state as
DoesNotExist instead of propagating an IoError, because Path::is_dir reports
false on a failed query; this refutes the claim at a concrete input. -/
theorem query_error_classified_as_missing :
    inspectState FsQueryResult.queryError ["rust"] ["rust"] =
      InixDirState.DoesNotExist := rfl

/-- C8 amended: inspection yields DoesNotExist whenever the is_dir query does not
report a directory, including when the query itself fails with a permission or
IO error; such failures are silently classified as DoesNotExist and inspection
never produces an IoError. -/
theorem inspect_swallows_query_failures (names existing : List String) :
    inspectState FsQueryResult.queryError names existing = InixDirState.DoesNotExist ∧
    inspectState FsQueryResult.notDir names existing = InixDirState.DoesNotExist :=
  ⟨rfl, rfl⟩

/-- C4: over a colliding list E that is a sub-list of the requested names R, the
collision classification is None exactly when E is empty, All (carrying E)
exactly when E equals R and R is non-empty, Some (carrying E) otherwise, and an
empty request always classifies as None. -/
theorem classify_matches_spec (R E : List String) (hsub : List.Sublist E R) :
    (classifyCollisions R E = TemplateCollisions.None ↔ E = []) ∧
    ((∃ hd tl, classifyCollisions R E = TemplateCollisions.All hd tl ∧ hd :: tl = E) ↔
      (E = R ∧ R ≠ [])) ∧
    ((∃ hd tl, classifyCollisions R E = TemplateCollisions.Some hd tl ∧ hd :: tl = E) ↔
      (E ≠ [] ∧ E ≠ R)) ∧
    (R = [] → classifyCollisions R E = TemplateCollisions.None) := by
  cases E with
  | nil =>
    refine ⟨by simp [classifyCollisions], ?_, ?_, fun _ => rfl⟩
    · constructor
      · rintro ⟨hd, tl, -, habs⟩
        exact absurd habs (List.cons_ne_nil _ _)
      · rintro ⟨hE, hR⟩
        exact absurd hE.symm hR
    · constructor
      · rintro ⟨hd, tl, -, habs⟩
        exact absurd habs (List.cons_ne_nil _ _)
      · rintro ⟨hne, -⟩
        exact absurd rfl hne
  | cons hd tl =>
    by_cases hlen : (hd :: tl).length = R.length
    · have hc : classifyCollisions R (hd :: tl) = TemplateCollisions.All hd tl := by
        simp [classifyCollisions, hlen]
      have hER : hd :: tl = R := hsub.eq_of_length hlen
      have hRne : R ≠ [] := by
        rw [← hER]
        exact List.cons_ne_nil _ _
      refine ⟨?_, ?_, ?_, ?_⟩
      · rw [hc]
        simp
      · constructor
        · intro _
          exact ⟨hER, hRne⟩
        · intro _
          exact ⟨hd, tl, hc, rfl⟩
      · constructor
        · rintro ⟨hd', tl', heq, -⟩
          rw [hc] at heq
          cases heq
        · rintro ⟨-, hne⟩
          exact absurd hER hne
      · intro hR
        rw [hR] at hlen
        exact absurd hlen (by simp)
    · have hc : classifyCollisions R (hd :: tl) = TemplateCollisions.Some hd tl := by
        simp only [classifyCollisions]
        rw [if_neg hlen]
      have hne : hd :: tl ≠ R := fun h => hlen (by rw [h])
      refine ⟨?_, ?_, ?_, ?_⟩
      · rw [hc]
        simp
      · constructor
        · rintro ⟨hd', tl', heq, -⟩
          rw [hc] at heq
          cases heq
        · rintro ⟨hE, -⟩
          exact absurd hE hne
      · constructor
        · intro _
          exact ⟨List.cons_ne_nil _ _, hne⟩
        · intro _
          exact ⟨hd, tl, hc, rfl⟩
      · intro hR
        rw [hR] at hsub
        have hnil : hd :: tl = [] := List.sublist_nil.mp hsub
        exact absurd hnil (List.cons_ne_nil _ _)

/-- C4 witness: the classification specification instantiated at the concrete
request list containing node and rust with node colliding. -/
theorem classify_matches_spec_witness :
    List.Sublist ["node"] ["node", "rust"] ∧
    ((classifyCollisions ["node", "rust"] ["node"] = TemplateCollisions.None ↔
        (["node"] : List String) = []) ∧
     ((∃ hd tl, classifyCollisions ["node", "rust"] ["node"] = TemplateCollisions.All hd tl ∧
         hd :: tl = ["node"]) ↔
       ((["node"] : List String) = ["node", "rust"] ∧ (["node", "rust"] : List String) ≠ [])) ∧
     ((∃ hd tl, classifyCollisions ["node", "rust"] ["node"] = TemplateCollisions.Some hd tl ∧
         hd :: tl = ["node"]) ↔
       ((["node"] : List String) ≠ [] ∧ (["node"] : List String) ≠ ["node", "rust"])) ∧
     ((["node", "rust"] : List String) = [] →
       classifyCollisions ["node", "rust"] ["node"] = TemplateCollisions.None)) :=
  ⟨by decide, classify_matches_spec ["node", "rust"] ["node"] (by decide)⟩

/-- C1: the claim that dry_run performs zero filesystem mutation fails on the
code: with dry_run set, an existing target directory and an empty template list,
the run still issues writes of shell.nix and .envrc at the target root, because
the base-template rendering of src/main.rs lines 653-680 runs unconditionally
after the dry-run branch. -/
theorem dry_run_still_writes_base_files :
    runOps { targetDir := ["p"], targetExists := true, targetReadonly := false,
             inixDirQuery := FsQueryResult.isDir, existingSubdirs := [],
             templates := [], on_conflict := Option.some ConflictBehavior.Overwrite,
             promptEvents := [], dry_run := true } =
      Option.some ([FsOp.writeFile (["p"] ++ ["shell.nix"]) (renderBaseNix []),
                    FsOp.writeFile (["p"] ++ [".envrc"]) (renderBaseEnvrc [])],
                   Option.none) ∧
    ([FsOp.writeFile (["p"] ++ ["shell.nix"]) (renderBaseNix []),
      FsOp.writeFile (["p"] ++ [".envrc"]) (renderBaseEnvrc [])] : List FsOp) ≠ [] :=
  ⟨rfl, by simp⟩

/-- C2: the claim that an empty requested template list with explicit Overwrite
leaves a pre-existing inix directory intact fails on the code: the Overwrite arm
of src/main.rs lines 559-587 removes and recreates the directory without checking
whether anything will be written into it. -/
theorem overwrite_empty_request_removes_dir :
    runOps { targetDir := ["p"], targetExists := true, targetReadonly := false,
             inixDirQuery := FsQueryResult.isDir, existingSubdirs := ["template"],
             templates := [], on_conflict := Option.some ConflictBehavior.Overwrite,
             promptEvents := [], dry_run := false } =
      Option.some (FsOp.removeDirAll (["p"] ++ ["inix"]) ::
          FsOp.createDirAll (["p"] ++ ["inix"]) :: baseRenderOps ["p"] [],
        Option.none) ∧
    FsOp.removeDirAll (["p"] ++ ["inix"]) ∈
      (FsOp.removeDirAll (["p"] ++ ["inix"]) ::
        FsOp.createDirAll (["p"] ++ ["inix"]) :: baseRenderOps ["p"] []) :=
  ⟨rfl, List.mem_cons_self _ _⟩

/-- C3: the claim that execution with effective behavior Cancel on an existing
inix directory performs no filesystem writes fails on the code: the Cancel arm of
the copy dispatch is empty, but the run still writes shell.nix and .envrc at the
target root through the unconditional base-template rendering. -/
theorem cancel_still_writes_base_files :
    runOps { targetDir := ["p"], targetExists := true, targetReadonly := false,
             inixDirQuery := FsQueryResult.isDir, existingSubdirs := ["node"],
             templates := [{ name := "node",
                             files := TemplateFiles2.Both "nixfile" "envrcfile" }],
             on_conflict := Option.some ConflictBehavior.Cancel,
             promptEvents := [], dry_run := false } =
      Option.some (baseRenderOps ["p"]
          [{ name := "node", files := TemplateFiles2.Both "nixfile" "envrcfile" }],
        Option.none) ∧
    FsOp.writeFile (["p"] ++ ["shell.nix"]) (renderBaseNix ["node"]) ∈
      baseRenderOps ["p"]
        [{ name := "node", files := TemplateFiles2.Both "nixfile" "envrcfile" }] ∧
    baseRenderOps ["p"]
        [{ name := "node", files := TemplateFiles2.Both "nixfile" "envrcfile" }] ≠ [] :=
  ⟨rfl, List.mem_cons_self _ _, by simp [baseRenderOps]⟩

/-- C5: when the inix directory does not exist and no explicit behavior is given,
the effective behavior is Cancel, the interactive prompt is never consulted, and
a non-dry run still completes without error, creating the inix directory and, for
every requested template, its subdirectory and its files: the Cancel default does
not abort the creation. -/
theorem missing_dir_default_cancel_still_creates (w : World)
    (hdir : rustIsDir w.inixDirQuery = false)
    (hconf : w.on_conflict = Option.none)
    (hdry : w.dry_run = false)
    (hro : w.targetReadonly = false) :
    inspectState w.inixDirQuery (w.templates.map Template2.name) w.existingSubdirs =
      InixDirState.DoesNotExist ∧
    resolveBehavior InixDirState.DoesNotExist Option.none w.promptEvents =
      PromptResult.chose ConflictBehavior.Cancel ∧
    (∀ evs, runOps { w with promptEvents := evs } = runOps w) ∧
    (∃ ops, runOps w = Option.some (ops, Option.none) ∧
      FsOp.createDirAll (w.targetDir ++ ["inix"]) ∈ ops ∧
      ∀ t ∈ w.templates,
        FsOp.createDirAll ((w.targetDir ++ ["inix"]) ++ [t.name]) ∈ ops ∧
        ∀ fc ∈ t.fileList,
          FsOp.writeFile ((w.targetDir ++ ["inix"]) ++ [t.name, fc.1]) fc.2 ∈ ops) := by
  have hstate : inspectState w.inixDirQuery (w.templates.map Template2.name)
      w.existingSubdirs = InixDirState.DoesNotExist := by
    simp [inspectState, hdir]
  have hrunEq : ∀ evs : List ReadEvent,
      runOps { w with promptEvents := evs } =
        Option.some ((if w.targetExists then
            copyTemplatesOps (w.targetDir ++ ["inix"]) InixDirState.DoesNotExist
                ConflictBehavior.Cancel w.templates ++
              baseRenderOps w.targetDir w.templates
          else
            FsOp.createDirAll w.targetDir ::
              (copyTemplatesOps (w.targetDir ++ ["inix"]) InixDirState.DoesNotExist
                  ConflictBehavior.Cancel w.templates ++
                baseRenderOps w.targetDir w.templates)), Option.none) := by
    intro evs
    cases hte : w.targetExists <;>
      simp [runOps, hstate, resolveBehavior, hconf, hdry, hro, hte]
  refine ⟨hstate, rfl, ?_, ?_⟩
  · intro evs
    exact (hrunEq evs).trans (hrunEq w.promptEvents).symm
  · refine ⟨_, hrunEq w.promptEvents, ?_, ?_⟩
    · cases w.targetExists
      · exact List.mem_cons_of_mem _ (List.mem_append_left _ (List.mem_cons_self _ _))
      · exact List.mem_append_left _ (List.mem_cons_self _ _)
    · intro t ht
      have hmem : ∀ op ∈ writeTemplateOps (w.targetDir ++ ["inix"]) t,
          op ∈ (if w.targetExists then
              copyTemplatesOps (w.targetDir ++ ["inix"]) InixDirState.DoesNotExist
                  ConflictBehavior.Cancel w.templates ++
                baseRenderOps w.targetDir w.templates
            else
              FsOp.createDirAll w.targetDir ::
                (copyTemplatesOps (w.targetDir ++ ["inix"]) InixDirState.DoesNotExist
                    ConflictBehavior.Cancel w.templates ++
                  baseRenderOps w.targetDir w.templates)) := by
        intro op hop
        have h1 : op ∈ copyTemplatesOps (w.targetDir ++ ["inix"]) InixDirState.DoesNotExist
            ConflictBehavior.Cancel w.templates :=
          List.mem_cons_of_mem _ (mem_templatesOps ht hop)
        cases w.targetExists
        · exact List.mem_cons_of_mem _ (List.mem_append_left _ h1)
        · exact List.mem_append_left _ h1
      refine ⟨hmem _ (List.mem_cons_self _ _), ?_⟩
      intro fc hfc
      exact hmem _ (List.mem_cons_of_mem _ (List.mem_map_of_mem _ hfc))

/-- C5 witness: the default-Cancel creation behavior instantiated at a concrete
world whose inix directory is missing and whose request is the rust template. -/
theorem missing_dir_default_cancel_still_creates_witness :
    rustIsDir FsQueryResult.notDir = false ∧
    (∃ ops,
      runOps { targetDir := ["p"], targetExists := true, targetReadonly := false,
               inixDirQuery := FsQueryResult.notDir, existingSubdirs := [],
               templates := [{ name := "rust", files := TemplateFiles2.Nix "nixfile" }],
               on_conflict := Option.none, promptEvents := [], dry_run := false } =
        Option.some (ops, Option.none) ∧
      FsOp.createDirAll (["p"] ++ ["inix"]) ∈ ops ∧
      ∀ t ∈ [({ name := "rust", files := TemplateFiles2.Nix "nixfile" } : Template2)],
        FsOp.createDirAll ((["p"] ++ ["inix"]) ++ [t.name]) ∈ ops ∧
        ∀ fc ∈ t.fileList,
          FsOp.writeFile ((["p"] ++ ["inix"]) ++ [t.name, fc.1]) fc.2 ∈ ops) :=
  ⟨rfl,
    (missing_dir_default_cancel_still_creates
      { targetDir := ["p"], targetExists := true, targetReadonly := false,
        inixDirQuery := FsQueryResult.notDir, existingSubdirs := [],
        templates := [{ name := "rust", files := TemplateFiles2.Nix "nixfile" }],
        on_conflict := Option.none, promptEvents := [], dry_run := false }
      rfl rfl rfl rfl).2.2.2⟩

/-- C6: with an existing inix directory and behavior MergeKeep, the copy phase
writes exactly the requested templates outside the collision set: all of them for
collisions None, the requested minus the colliding names for Some, and none for
All; and in the All case the whole run neither removes nor recreates the inix
directory itself. -/
theorem merge_keep_writes_non_colliding (inixPath : List String)
    (templates : List Template2) :
    (copyTemplatesOps inixPath (InixDirState.AlreadyExists TemplateCollisions.None)
        ConflictBehavior.MergeKeep templates = templatesOps inixPath templates) ∧
    (∀ hd tl,
      copyTemplatesOps inixPath
          (InixDirState.AlreadyExists (TemplateCollisions.Some hd tl))
          ConflictBehavior.MergeKeep templates =
        templatesOps inixPath
          (templates.filter (fun t => !((hd :: tl).contains t.name)))) ∧
    (∀ hd tl,
      copyTemplatesOps inixPath
          (InixDirState.AlreadyExists (TemplateCollisions.All hd tl))
          ConflictBehavior.MergeKeep templates = []) ∧
    (∀ (w : World) (hd : String) (tl : List String) (res : List FsOp × Option RunError),
      w.dry_run = false →
      w.on_conflict = Option.some ConflictBehavior.MergeKeep →
      rustIsDir w.inixDirQuery = true →
      collisionsOf w = TemplateCollisions.All hd tl →
      runOps w = Option.some res →
      FsOp.removeDirAll (w.targetDir ++ ["inix"]) ∉ res.1 ∧
      FsOp.createDirAll (w.targetDir ++ ["inix"]) ∉ res.1) := by
  refine ⟨rfl, fun hd tl => rfl, fun hd tl => rfl, ?_⟩
  intro w hd tl res hdry hconf hq hcoll hrun
  simp only [collisionsOf] at hcoll
  have hstate : inspectState w.inixDirQuery (w.templates.map Template2.name)
      w.existingSubdirs = InixDirState.AlreadyExists (TemplateCollisions.All hd tl) := by
    simp [inspectState, hq, hcoll]
  cases hte : w.targetExists
  · have hr : runOps w = Option.some (FsOp.createDirAll w.targetDir ::
        baseRenderOps w.targetDir w.templates, Option.none) := by
      simp [runOps, hstate, resolveBehavior, hconf, hdry, hte, copyTemplatesOps,
        templatesToCopy, templatesOps]
    rw [hr] at hrun
    injection hrun with h
    subst h
    constructor
    · simp [baseRenderOps]
    · simp [baseRenderOps]
  · cases hro : w.targetReadonly
    · have hr : runOps w = Option.some (baseRenderOps w.targetDir w.templates,
          Option.none) := by
        simp [runOps, hstate, resolveBehavior, hconf, hdry, hte, hro,
          copyTemplatesOps, templatesToCopy, templatesOps]
      rw [hr] at hrun
      injection hrun with h
      subst h
      constructor <;> simp [baseRenderOps]
    · have hr : runOps w = Option.some ([], Option.some RunError.permissionDenied) := by
        simp [runOps, hstate, resolveBehavior, hconf, hdry, hte, hro]
      rw [hr] at hrun
      injection hrun with h
      subst h
      constructor <;> simp

/-- C6 witness: the MergeKeep behavior instantiated at a concrete world where the
single requested template node already exists, so nothing is copied and the inix
directory itself is neither removed nor recreated. -/
theorem merge_keep_writes_non_colliding_witness :
    collisionsOf mergeKeepAllWorld = TemplateCollisions.All "node" [] ∧
    runOps mergeKeepAllWorld =
      Option.some (baseRenderOps ["p"] mergeKeepAllWorld.templates, Option.none) ∧
    FsOp.removeDirAll (["p"] ++ ["inix"]) ∉
      baseRenderOps ["p"] mergeKeepAllWorld.templates ∧
    FsOp.createDirAll (["p"] ++ ["inix"]) ∉
      baseRenderOps ["p"] mergeKeepAllWorld.templates :=
  ⟨by decide, by decide,
    ((merge_keep_writes_non_colliding (["p"] ++ ["inix"])
        mergeKeepAllWorld.templates).2.2.2 mergeKeepAllWorld "node" []
      (baseRenderOps ["p"] mergeKeepAllWorld.templates, Option.none)
      rfl rfl rfl (by decide) (by decide)).1,
    ((merge_keep_writes_non_colliding (["p"] ++ ["inix"])
        mergeKeepAllWorld.templates).2.2.2 mergeKeepAllWorld "node" []
      (baseRenderOps ["p"] mergeKeepAllWorld.templates, Option.none)
      rfl rfl rfl (by decide) (by decide)).2⟩

/-- C7 counterexample: with an existing inix directory, no explicit behavior, and
end of input as the first prompt event, the run is cancelled having performed no
filesystem operations, but the bail propagates out of run as an error, so the
process exit is not successful; this refutes the claimed non-error successful
exit at a concrete input. -/
theorem prompt_eof_exit_not_successful :
    runOps { targetDir := ["p"], targetExists := true, targetReadonly := false,
             inixDirQuery := FsQueryResult.isDir, existingSubdirs := [],
             templates := [], on_conflict := Option.none,
             promptEvents := [ReadEvent.eof], dry_run := false } =
      Option.some ([], Option.some RunError.cancelled) ∧
    mainExitsSuccessfully
        { targetDir := ["p"], targetExists := true, targetReadonly := false,
          inixDirQuery := FsQueryResult.isDir, existingSubdirs := [],
          templates := [], on_conflict := Option.none,
          promptEvents := [ReadEvent.eof], dry_run := false } = false :=
  ⟨rfl, rfl⟩

/-- C7 amended: an end-of-input or interrupt signal during the interactive prompt
cancels the run having performed no filesystem writes, and the cancellation
propagates as an error return out of run, so the process exits unsuccessfully
rather than with the successful exit the claim states. -/
theorem prompt_eof_cancels_without_writes :
    (∀ (opts : List PromptOption) (evs : List ReadEvent),
      promptLoop opts (ReadEvent.eof :: evs) = PromptResult.cancelled ∧
      promptLoop opts (ReadEvent.interrupted :: evs) = PromptResult.cancelled) ∧
    (∀ w : World, rustIsDir w.inixDirQuery = true → w.on_conflict = Option.none →
      promptLoop (promptOptions (collisionsOf w)) w.promptEvents =
        PromptResult.cancelled →
      runOps w = Option.some ([], Option.some RunError.cancelled) ∧
      mainExitsSuccessfully w = false) := by
  constructor
  · intro opts evs
    exact ⟨rfl, rfl⟩
  · intro w hq hconf hcancel
    have hstate : inspectState w.inixDirQuery (w.templates.map Template2.name)
        w.existingSubdirs = InixDirState.AlreadyExists (collisionsOf w) := by
      simp [inspectState, hq, collisionsOf]
    have hr : runOps w = Option.some ([], Option.some RunError.cancelled) := by
      simp [runOps, hstate, resolveBehavior, hconf, hcancel]
    exact ⟨hr, by simp [mainExitsSuccessfully, hr]⟩

/-- C7 witness: the amended cancellation behavior instantiated at a concrete
world interrupted at the prompt. -/
theorem prompt_eof_cancels_without_writes_witness :
    rustIsDir interruptedWorld.inixDirQuery = true ∧
    promptLoop (promptOptions (collisionsOf interruptedWorld))
      interruptedWorld.promptEvents = PromptResult.cancelled ∧
    (runOps interruptedWorld = Option.some ([], Option.some RunError.cancelled) ∧
     mainExitsSuccessfully interruptedWorld = false) :=
  ⟨rfl, rfl, prompt_eof_cancels_without_writes.2 interruptedWorld rfl rfl rfl⟩

/-- C10: in non-dry-run execution with an existing read-only target directory,
the run aborts with an error before issuing any filesystem operation; with an
explicit behavior the error is exactly the permission bail of src/main.rs
lines 520-525. -/
theorem readonly_target_aborts (w : World)
    (hdry : w.dry_run = false) (hte : w.targetExists = true)
    (hro : w.targetReadonly = true) :
    (∀ res, runOps w = Option.some res → res.1 = [] ∧ res.2.isSome = true) ∧
    (∀ b, w.on_conflict = Option.some b →
      runOps w = Option.some ([], Option.some RunError.permissionDenied)) := by
  constructor
  · intro res hres
    rcases hbr : resolveBehavior (inspectState w.inixDirQuery
        (w.templates.map Template2.name) w.existingSubdirs) w.on_conflict
        w.promptEvents with b | - | -
    · have hr : runOps w = Option.some ([], Option.some RunError.permissionDenied) := by
        simp [runOps, hbr, hdry, hte, hro]
      rw [hr] at hres
      injection hres with h
      subst h
      exact ⟨rfl, rfl⟩
    · have hr : runOps w = Option.some ([], Option.some RunError.cancelled) := by
        simp [runOps, hbr]
      rw [hr] at hres
      injection hres with h
      subst h
      exact ⟨rfl, rfl⟩
    · have hr : runOps w = Option.none := by
        simp [runOps, hbr]
      rw [hr] at hres
      exact Option.noConfusion hres
  · intro b hb
    simp [runOps, hb, resolveBehavior_explicit, hdry, hte, hro]

/-- C10 witness: the read-only abort instantiated at a concrete world with an
explicit Overwrite behavior. -/
theorem readonly_target_aborts_witness :
    readonlyWorld.on_conflict = Option.some ConflictBehavior.Overwrite ∧
    runOps readonlyWorld = Option.some ([], Option.some RunError.permissionDenied) :=
  ⟨rfl, (readonly_target_aborts readonlyWorld rfl rfl rfl).2
    ConflictBehavior.Overwrite rfl⟩
